import Mathlib

/-!
A shallow embedding of `uptide/netcdf_reader.py` (classes `Interpolator` and
`NetCDFInterpolator`), together with theorems about its interpolation and
windowing behaviour.

Modelling conventions:

* Python floats are modelled as rationals (`ℚ`); every property below is an
  exact-arithmetic property of the formulas in the source.
* A 2-d numpy array is a `Grid2`: a shape together with a total data function.
  Scalar indexing `a[i, j]` follows numpy semantics: an integer index in
  `[-n, n)` is accepted (a negative one wraps around to the far end of the
  axis), anything outside that range raises `IndexError`.  This is modelled by
  `Grid2.get` returning an `Option`.
* Exceptions are modelled with `Except Err`.  `CoordinateError` and
  `NetCDFInterpolatorError` keep their message and payload; the built-in
  Python exceptions that can occur (`TypeError`, `AttributeError`, `KeyError`,
  `IndexError`, `ZeroDivisionError`) are bare constructors.
* Fields with leading non-spatial axes (`val[..., i, j]`) are modelled in
  their scalar (purely 2-d) form; the leading axes are carried through the
  arithmetic unchanged by the source and play no role in any property below.
* Mutation is modelled by returning the new object.  Two mutations of the
  source have no influence on the value or error of any single call studied
  here and are left out, with a note at the place they occur: the write into
  the extrapolation cache in `find_extrapolation_points`, and the partially
  appended `self.iranges` that an exception raised mid-loop in `set_ranges`
  leaves behind.
-/

/-- Errors that the translated code can raise.  `coordinateError` is the
`CoordinateError` class of the source (carrying the probed coordinate and the
mapped indices), `netcdfError` is `NetCDFInterpolatorError`; the remaining
constructors are Python built-in exceptions. -/
inductive Err where
  | coordinateError (message : String) (x : ℚ × ℚ) (i j : ℤ)
  | netcdfError (message : String)
  | typeError
  | attributeError
  | keyError
  | indexError
  | zeroDivisionError
  deriving DecidableEq

/-- Decidable equality of `Except` results, used to evaluate the embedded
code on concrete inputs. -/
instance exceptDecEq {ε α : Type} [DecidableEq ε] [DecidableEq α] :
    DecidableEq (Except ε α) := fun e1 e2 =>
  match e1, e2 with
  | .ok a, .ok b =>
    if h : a = b then .isTrue (by rw [h])
    else .isFalse (fun hc => h (Except.ok.inj hc))
  | .error a, .error b =>
    if h : a = b then .isTrue (by rw [h])
    else .isFalse (fun hc => h (Except.error.inj hc))
  | .ok _, .error _ => .isFalse (fun hc => Except.noConfusion hc)
  | .error _, .ok _ => .isFalse (fun hc => Except.noConfusion hc)

/-- Resolution of one integer index against an axis of length `n`, with numpy
semantics: indices in `[0, n)` are used as they are, indices in `[-n, 0)` wrap
around to the far end, everything else raises `IndexError` (`none`). -/
def pyIdx (n : ℕ) (i : ℤ) : Option ℕ :=
  if 0 ≤ i ∧ i < (n : ℤ) then some i.toNat
  else if -(n : ℤ) ≤ i ∧ i < 0 then some (i + (n : ℤ)).toNat
  else none

/-- A 2-d numpy array of rationals. -/
structure Grid2 where
  nx : ℕ
  ny : ℕ
  data : ℕ → ℕ → ℚ

/-- Scalar indexing `a[i, j]` on a 2-d array, numpy semantics. -/
def Grid2.get (g : Grid2) (i j : ℤ) : Option ℚ :=
  match pyIdx g.nx i, pyIdx g.ny j with
  | some a, some b => some (g.data a b)
  | _, _ => none

/-- Python `int(q)` on a float: truncation toward zero. -/
def pyInt (q : ℚ) : ℤ := if 0 ≤ q then ⌊q⌋ else ⌈q⌉

/-- The `Interpolator` object of the source: affine origin/delta, the field
array `val`, an optional mask array, and the extrapolation cache (a dict from
query coordinates to lists of index pairs). -/
structure Interpolator where
  origin : ℚ × ℚ
  delta : ℚ × ℚ
  val : Grid2
  mask : Option Grid2
  extrapolation_points : List ((ℚ × ℚ) × List (ℤ × ℤ))

/-- `Interpolator.__init__`: stores the grid data and starts with an empty
extrapolation cache. -/
def Interpolator.make (origin delta : ℚ × ℚ) (val : Grid2)
    (mask : Option Grid2 := none) : Interpolator :=
  { origin := origin, delta := delta, val := val, mask := mask,
    extrapolation_points := [] }

/-- `Interpolator.set_mask`: replaces the mask and invalidates the
extrapolation cache. -/
def Interpolator.set_mask (ip : Interpolator) (mask : Option Grid2) : Interpolator :=
  { ip with mask := mask, extrapolation_points := [] }

/-- Python dict lookup `self.extrapolation_points[x]` guarded by
`x in self.extrapolation_points` (keys compared by value). -/
def cacheLookup (cache : List ((ℚ × ℚ) × List (ℤ × ℤ))) (x : ℚ × ℚ) :
    Option (List (ℤ × ℤ)) :=
  match cache with
  | [] => none
  | e :: rest => if e.1 = x then some e.2 else cacheLookup rest x

/-- The 12 candidate offsets of `find_extrapolation_points`: the list `ijs`
of the source, neighbouring points first, then the diagonal points. -/
def searchOffsets (i j : ℤ) : List (ℤ × ℤ) :=
  [(i - 1, j + 1), (i - 1, j), (i, j - 1), (i + 1, j - 1),
   (i + 2, j), (i + 2, j + 1), (i + 1, j + 2), (i, j + 2)]
  ++ [(i - 1, j - 1), (i + 2, j - 1), (i + 2, j + 2), (i - 1, j + 2)]

/-- The body of the `try` in `find_extrapolation_points`: a candidate is kept
when `self.mask[a, b]` is truthy (a nonzero float); an `IndexError` (index
outside `[-n, n)` on either axis) is caught and the candidate ignored.  Note
a *negative* in-range index does not raise: it wraps around. -/
def maskTruthy (m : Grid2) (ab : ℤ × ℤ) : Bool :=
  match m.get ab.1 ab.2 with
  | some w => decide (w ≠ 0)
  | none => false

/-- `Interpolator.find_extrapolation_points`.  The `print` warning is a side
effect with no bearing on the result.  The store into the cache on the way
out is omitted: it does not change the value returned by this call (the claim
properties all start from a fresh cache). -/
def Interpolator.find_extrapolation_points (ip : Interpolator) (x : ℚ × ℚ)
    (i j : ℤ) : Except Err (List (ℤ × ℤ)) :=
  match cacheLookup ip.extrapolation_points x with
  | some pts => .ok pts
  | none =>
    match ip.mask with
    | none => .error .typeError
    | some m =>
      let extrap_points := (searchOffsets i j).filter (maskTruthy m)
      if extrap_points.length = 0 then
        .error (.coordinateError "Inside landmask - tried extrapolating but failed" x i j)
      else
        .ok extrap_points

/-- `sum([self.val[..., a, b] for a, b in extrap_points])`: left-to-right sum
of the field values; an out-of-range index raises `IndexError` (`none`). -/
def sumValList (g : Grid2) : List (ℤ × ℤ) → Option ℚ
  | [] => some 0
  | ab :: rest =>
    match g.get ab.1 ab.2, sumValList g rest with
    | some v, some s => some (v + s)
    | _, _ => none

/-- `Interpolator.get_val`.  Mirrors the source line by line: affine mapping
to continuous indices, floor indices `i, j`, explicit rejection of negative
indices (which would otherwise wrap), fractional parts `alpha = xhat % 1.0`
and `beta = yhat % 1.0`, then either the mask-weighted renormalized sum (with
extrapolation fallback) or the plain bilinear formula.  Every `IndexError`
raised inside the `try` block becomes
`CoordinateError("Coordinate out of range", x, i, j)`; a `CoordinateError`
raised by `find_extrapolation_points` propagates unchanged.  A Python float
division by zero (a zero `delta` component) raises `ZeroDivisionError`. -/
def Interpolator.get_val (ip : Interpolator) (x : ℚ × ℚ)
    (allow_extrapolation : Bool := false) : Except Err ℚ :=
  if ip.delta.1 = 0 ∨ ip.delta.2 = 0 then .error .zeroDivisionError else
  let xhat := (x.1 - ip.origin.1) / ip.delta.1
  let yhat := (x.2 - ip.origin.2) / ip.delta.2
  let i : ℤ := ⌊xhat⌋
  let j : ℤ := ⌊yhat⌋
  if i < 0 ∨ j < 0 then .error (.coordinateError "Coordinate out of range" x i j) else
  let alpha := xhat - (i : ℚ)
  let beta := yhat - (j : ℚ)
  match ip.mask with
  | some m =>
    match m.get i j, m.get (i + 1) j, m.get i (j + 1), m.get (i + 1) (j + 1) with
    | some mij, some mi1j, some mij1, some mi1j1 =>
      let w00 := (1 - alpha) * (1 - beta) * mij
      let w10 := alpha * (1 - beta) * mi1j
      let w01 := (1 - alpha) * beta * mij1
      let w11 := alpha * beta * mi1j1
      match ip.val.get i j, ip.val.get (i + 1) j, ip.val.get i (j + 1),
            ip.val.get (i + 1) (j + 1) with
      | some vij, some vi1j, some vij1, some vi1j1 =>
        let value := w00 * vij + w10 * vi1j + w01 * vij1 + w11 * vi1j1
        let sumw := w00 + w10 + w01 + w11
        if 0 < sumw then .ok (value / sumw)
        else if allow_extrapolation then
          match ip.find_extrapolation_points x i j with
          | .error e => .error e
          | .ok extrap_points =>
            match sumValList ip.val extrap_points with
            | some s => .ok (s / (extrap_points.length : ℚ))
            | none => .error (.coordinateError "Coordinate out of range" x i j)
        else .error (.coordinateError "Probing point inside land mask" x i j)
      | _, _, _, _ => .error (.coordinateError "Coordinate out of range" x i j)
    | _, _, _, _ => .error (.coordinateError "Coordinate out of range" x i j)
  | none =>
    match ip.val.get i j, ip.val.get (i + 1) j, ip.val.get i (j + 1),
          ip.val.get (i + 1) (j + 1) with
    | some vij, some vi1j, some vij1, some vi1j1 =>
      .ok ((1 - beta) * ((1 - alpha) * vij + alpha * vi1j)
           + beta * ((1 - alpha) * vij1 + alpha * vi1j1))
    | _, _, _, _ => .error (.coordinateError "Coordinate out of range" x i j)

/-- A 1-d or 2-d netCDF coordinate variable, or one of any other rank
(`aBig`), as read by `NetCDFInterpolator.__init__`. -/
inductive NcArray where
  | a1 (n : ℕ) (data : ℕ → ℚ)
  | a2 (n m : ℕ) (data : ℕ → ℕ → ℚ)
  | aBig

/-- The external netCDF data source: named dimensions (`self.nc.dimensions`)
and named variables (`self.nc.variables`, called `vars` here because
`variables` is reserved in Lean); a missing name raises `KeyError`
(`none`). -/
structure NcFile where
  dimensions : String → Option ℕ
  vars : String → Option NcArray

/-- The mutable state of a `NetCDFInterpolator` object.  `shape`, `origin`
and `delta` are the per-axis lists built by `__init__`; `iranges` is `None`
until `set_ranges` runs; `mask` and `val` are the (possibly windowed) arrays;
`interpolator` is the active `Interpolator` sub-object (`None` until
`set_field` is called). -/
structure NetCDFInterpolator where
  nc : NcFile
  shape : List ℤ
  origin : List ℚ
  delta : List ℚ
  iranges : Option (List (ℤ × ℤ))
  mask : Option Grid2
  val : Option Grid2
  interpolator : Option Interpolator

/-- The two argument forms dispatched on by `len(args)` in
`NetCDFInterpolator.__init__`: copying the grid identity of another instance,
or reading named dimensions and coordinate fields. -/
inductive InitArgs where
  | copy (nci : NetCDFInterpolator)
  | fromNames (dimensions : List String) (coordinate_fields : List String)

/-- One axis of the `__init__` coordinate loop: reads `origin` and `delta`
from the first and last samples of the coordinate variable.  `val[0]` (or
`val[0,0]`) on an empty array raises `IndexError`; the division by
`self.shape[-1]-1` raises `ZeroDivisionError` when the dimension length is 1;
a coordinate variable of rank other than 1 or 2 raises
`NetCDFInterpolatorError`. -/
def axisOriginDelta (n : ℕ) (v : NcArray) : Except Err (ℚ × ℚ) :=
  match v with
  | .a1 len data =>
    if len = 0 then .error .indexError
    else if (n : ℤ) - 1 = 0 then .error .zeroDivisionError
    else .ok (data 0, (data (len - 1) - data 0) / ((n : ℚ) - 1))
  | .a2 len m data =>
    if len = 0 ∨ m = 0 then .error .indexError
    else if (n : ℤ) - 1 = 0 then .error .zeroDivisionError
    else .ok (data 0 0, (data (len - 1) (m - 1) - data 0 0) / ((n : ℚ) - 1))
  | .aBig => .error (.netcdfError "Unrecognized shape of coordinate field")

/-- The `for dimension, field_name in zip(dimensions, coordinate_fields)`
loop of `__init__`, building the `shape`, `origin` and `delta` lists.  A
dimension or variable name missing from the file raises `KeyError`. -/
def initLoop (nc : NcFile) : List (String × String) → Except Err (List ℤ × List ℚ × List ℚ)
  | [] => .ok ([], [], [])
  | (dimension, field_name) :: rest =>
    match nc.dimensions dimension with
    | none => .error .keyError
    | some n =>
      match nc.vars field_name with
      | none => .error .keyError
      | some v =>
        match axisOriginDelta n v with
        | .error e => .error e
        | .ok (x0, dx) =>
          match initLoop nc rest with
          | .error e => .error e
          | .ok (sh, origin, delta) => .ok ((n : ℤ) :: sh, x0 :: origin, dx :: delta)

/-- `NetCDFInterpolator.__init__` up to (and excluding) the `"ranges"` kwargs
check: argument dispatch, grid identity, and the unconditional
`self.interpolator = None` of line 199. -/
def initBase (nc : NcFile) (args : InitArgs) : Except Err NetCDFInterpolator :=
  match args with
  | .copy nci =>
    .ok { nc := nc, shape := nci.shape, origin := nci.origin, delta := nci.delta,
          iranges := nci.iranges, mask := nci.mask, val := none, interpolator := none }
  | .fromNames dimensions coordinate_fields =>
    match initLoop nc (dimensions.zip coordinate_fields) with
    | .error e => .error e
    | .ok (sh, origin, delta) =>
      .ok { nc := nc, shape := sh, origin := origin, delta := delta,
            iranges := none, mask := none, val := none, interpolator := none }

/-- `NetCDFInterpolator.__init__`.  When a `"ranges"` keyword argument is
present the source evaluates `kwargs("ranges")`, which calls the kwargs dict
as a function and therefore raises `TypeError`, before `set_ranges` can ever
run. -/
def NetCDFInterpolator.init (nc : NcFile) (args : InitArgs)
    (kwranges : Option (List (ℚ × ℚ))) : Except Err NetCDFInterpolator :=
  match initBase nc args with
  | .error e => .error e
  | .ok base =>
    match kwranges with
    | some _ => .error .typeError
    | none => .ok base

/-- Python slicing `a[i0:i1, j0:j1]` restricted to the nonnegative bounds
produced by `set_ranges` (`0 ≤ imin`, so the general rules for negative slice
indices are not needed): the result length on an axis is
`min(i1, n) - min(i0, n)` clamped at zero, and entries are shifted by the
lower bound. -/
def Grid2.pySlice (g : Grid2) (r0 r1 : ℤ × ℤ) : Grid2 :=
  { nx := (min r0.2 (g.nx : ℤ) - min r0.1 (g.nx : ℤ)).toNat,
    ny := (min r1.2 (g.ny : ℤ) - min r1.1 (g.ny : ℤ)).toNat,
    data := fun a b => g.data (r0.1.toNat + a) (r1.1.toNat + b) }

/-- The 2-element `origin`/`delta` lists the source passes to
`Interpolator(...)`, read positionally (`origin[0]`, `origin[1]`); the API
only ever builds lists of length 2 here. -/
def listToPair (l : List ℚ) : ℚ × ℚ := (l.getD 0 0, l.getD 1 0)

/-- The per-axis index window of `set_ranges` (lines 218 and 225 of the
source): `imin = max(int((xlimits[0]-xmin)/deltax)-1, 0)` and
`imax = min(int((xlimits[1]-xmin)/deltax)+3, xshape)`, with Python `int()`
truncation. -/
def rangeAxis (xlimits : ℚ × ℚ) (xmin : ℚ) (xshape : ℤ) (deltax : ℚ) : ℤ × ℤ :=
  (max (pyInt ((xlimits.1 - xmin) / deltax) - 1) 0,
   min (pyInt ((xlimits.2 - xmin) / deltax) + 3) xshape)

/-- The `for xlimits,xmin,xshape,deltax in zip(...)` loop of `set_ranges`,
collecting the index ranges and the new origin and shape.  A zero `deltax`
raises `ZeroDivisionError` at the `imin` division; `imin >= imax` raises
`NetCDFInterpolatorError`.  (In the source a failure mid-loop leaves a
partially appended `self.iranges` behind; that partial state is observable
only through later calls on a failed object, which no property here makes.) -/
def setRangesLoop : List (ℚ × ℚ) → List ℚ → List ℤ → List ℚ →
    Except Err (List (ℤ × ℤ) × List ℚ × List ℤ)
  | xlimits :: rs, xmin :: os, xshape :: ns, deltax :: ds =>
    if deltax = 0 then .error .zeroDivisionError
    else
      let r := rangeAxis xlimits xmin xshape deltax
      if r.2 ≤ r.1 then .error (.netcdfError "Provided ranges outside netCDF range")
      else
        match setRangesLoop rs os ns ds with
        | .error e => .error e
        | .ok (ir, origin_new, shape_new) =>
          .ok (r :: ir, (xmin + (r.1 : ℚ) * deltax) :: origin_new,
               (r.2 - r.1) :: shape_new)
  | _, _, _, _ => .ok ([], [], [])

/-- `NetCDFInterpolator.set_ranges`: refuses a second call, computes the
per-axis windows, updates `origin` and `shape`, re-slices an already-set mask
(`self.mask[ir[0][0]:ir[0][1], ir[1][0]:ir[1][1]]`, an `IndexError` when
fewer than two windows were produced), and, when a field was already
selected, re-slices `val` and rebuilds the `Interpolator` sub-object. -/
def NetCDFInterpolator.set_ranges (s : NetCDFInterpolator)
    (ranges : List (ℚ × ℚ)) : Except Err NetCDFInterpolator :=
  match s.iranges with
  | some _ => .error (.netcdfError "set_ranges() should only be called once!")
  | none =>
    match setRangesLoop ranges s.origin s.shape s.delta with
    | .error e => .error e
    | .ok (ir, origin_new, shape_new) =>
      match s.mask, ir with
      | some _, [] => .error .indexError
      | some _, [_] => .error .indexError
      | maskOld, _ =>
        let mask2 : Option Grid2 :=
          match maskOld, ir with
          | some m, r0 :: r1 :: _ => some (m.pySlice r0 r1)
          | _, _ => none
        match s.interpolator with
        | none =>
          .ok { s with
                iranges := some ir, origin := origin_new,
                shape := shape_new, mask := mask2 }
        | some _ =>
          match s.val, ir with
          | none, _ => .error .attributeError
          | some _, [] => .error .indexError
          | some _, [_] => .error .indexError
          | some v, r0 :: r1 :: _ =>
            let v2 := v.pySlice r0 r1
            .ok { s with
                  iranges := some ir, origin := origin_new,
                  shape := shape_new, mask := mask2, val := some v2,
                  interpolator := some (Interpolator.make (listToPair origin_new)
                    (listToPair s.delta) v2 mask2) }

/-- `NetCDFInterpolator.get_val`: `hasattr(self, "interpolator")` always
holds after `__init__` (line 199 sets the attribute unconditionally, to
`None`), so the guard that would raise "Should call set_field() before
calling get_val()!" can never fire; delegating on a `None` interpolator then
raises `AttributeError`. -/
def NetCDFInterpolator.get_val (s : NetCDFInterpolator) (x : ℚ × ℚ)
    (allow_extrapolation : Bool := false) : Except Err ℚ :=
  match s.interpolator with
  | none => .error .attributeError
  | some ip => ip.get_val x allow_extrapolation

/-- Does a result carry a `CoordinateError` whose payload is exactly the
probed coordinate `x` and the mapped indices `i, j`? -/
def coordErrAt (r : Except Err ℚ) (x : ℚ × ℚ) (i j : ℤ) : Bool :=
  match r with
  | .error (.coordinateError _ x2 i2 j2) =>
    decide (x2 = x) && decide (i2 = i) && decide (j2 = j)
  | _ => false

/-- The 4x4 example field `val[i,j] = i + j` of the documentation. -/
def sumGrid : Grid2 := ⟨4, 4, fun a b => (a : ℚ) + (b : ℚ)⟩

/-- A 4x4 field `val[i,j] = 10*i + j`, whose entries identify their index. -/
def rampVal : Grid2 := ⟨4, 4, fun a b => 10 * (a : ℚ) + (b : ℚ)⟩

/-- A 4x4 mask that is zero everywhere except at index `(3, 0)`. -/
def wrapMask : Grid2 := ⟨4, 4, fun a b => if a = 3 ∧ b = 0 then 1 else 0⟩

/-- A 4x4 mask that is zero everywhere except at the origin `(0, 0)`. -/
def cornerMask : Grid2 := ⟨4, 4, fun a b => if a = 0 ∧ b = 0 then 1 else 0⟩

/-- A 4x4 mask that is zero everywhere. -/
def zeroMask : Grid2 := ⟨4, 4, fun _ _ => 0⟩

/-- A 4x4 mask that is one everywhere. -/
def onesMask : Grid2 := ⟨4, 4, fun _ _ => 1⟩

/-- A netCDF file with no dimensions and no variables. -/
def emptyNc : NcFile := ⟨fun _ => none, fun _ => none⟩

/-- A 4x4 netCDF file: dimensions `nx = ny = 4` and unit-spaced coordinate
variables `lon`, `lat`. -/
def demoFile : NcFile :=
  { dimensions := fun s => if s = "nx" then some 4 else if s = "ny" then some 4 else none,
    vars := fun s =>
      if s = "lon" then some (.a1 4 (fun k => (k : ℚ)))
      else if s = "lat" then some (.a1 4 (fun k => (k : ℚ))) else none }

/-- A freshly initialised `NetCDFInterpolator` state over a 4x4 unit grid:
`origin = (0,0)`, `delta = (1,1)`, `shape = (4,4)`, no window, no mask, no
field selected. -/
def baseState : NetCDFInterpolator :=
  { nc := emptyNc, shape := [4, 4], origin := [0, 0], delta := [1, 1],
    iranges := none, mask := none, val := none, interpolator := none }

/-- The state `baseState` reaches after `set_ranges(((0,2),(0,2)))`:
window `[0,4) x [0,4)`, origin and shape unchanged. -/
def windowedState : NetCDFInterpolator :=
  { baseState with iranges := some [(0, 4), (0, 4)], origin := [0, 0], shape := [4, 4] }

/-- The quadruples traversed by `zip(ranges, self.origin, self.shape,
self.delta)` in `set_ranges` (stopping at the shortest list). -/
def zip4 : List (ℚ × ℚ) → List ℚ → List ℤ → List ℚ →
    List ((ℚ × ℚ) × ℚ × ℤ × ℚ)
  | r :: rs, o :: os, n :: ns, d :: ds => (r, o, n, d) :: zip4 rs os ns ds
  | _, _, _, _ => []

/-- Did a `NetCDFInterpolator` operation complete without an exception? -/
def exceptOk (e : Except Err NetCDFInterpolator) : Bool :=
  match e with
  | .ok _ => true
  | .error _ => false

/-! ### Basic facts about numpy-style indexing -/

lemma Grid2.get_inb (g : Grid2) (i j : ℤ) (hi0 : 0 ≤ i) (hi1 : i < (g.nx : ℤ))
    (hj0 : 0 ≤ j) (hj1 : j < (g.ny : ℤ)) :
    g.get i j = some (g.data i.toNat j.toNat) := by
  unfold Grid2.get pyIdx
  rw [if_pos ⟨hi0, hi1⟩, if_pos ⟨hj0, hj1⟩]

lemma Grid2.get_far_left (g : Grid2) (i j : ℤ) (hi0 : 0 ≤ i)
    (hi1 : (g.nx : ℤ) ≤ i) : g.get i j = none := by
  have hi : pyIdx g.nx i = none := by
    unfold pyIdx
    rw [if_neg (by omega), if_neg (by omega)]
  unfold Grid2.get
  rw [hi]

lemma Grid2.get_far_right (g : Grid2) (i j : ℤ) (hj0 : 0 ≤ j)
    (hj1 : (g.ny : ℤ) ≤ j) : g.get i j = none := by
  have hj : pyIdx g.ny j = none := by
    unfold pyIdx
    rw [if_neg (by omega), if_neg (by omega)]
  unfold Grid2.get
  rw [hj]
  cases hx : pyIdx g.nx i <;> rfl

/-! ### Evaluation lemmas for `Interpolator.get_val` -/

lemma get_val_none_eval (g : Grid2) (x0 y0 dx dy x y : ℚ) (allow : Bool)
    (hdx : dx ≠ 0) (hdy : dy ≠ 0)
    (hi0 : 0 ≤ ⌊(x - x0) / dx⌋) (hj0 : 0 ≤ ⌊(y - y0) / dy⌋)
    (hi1 : ⌊(x - x0) / dx⌋ + 1 < (g.nx : ℤ)) (hj1 : ⌊(y - y0) / dy⌋ + 1 < (g.ny : ℤ)) :
    (Interpolator.make (x0, y0) (dx, dy) g none).get_val (x, y) allow =
      .ok ((1 - ((y - y0) / dy - (⌊(y - y0) / dy⌋ : ℚ))) *
            ((1 - ((x - x0) / dx - (⌊(x - x0) / dx⌋ : ℚ))) *
              g.data (⌊(x - x0) / dx⌋).toNat (⌊(y - y0) / dy⌋).toNat
            + ((x - x0) / dx - (⌊(x - x0) / dx⌋ : ℚ)) *
              g.data ((⌊(x - x0) / dx⌋).toNat + 1) (⌊(y - y0) / dy⌋).toNat)
          + ((y - y0) / dy - (⌊(y - y0) / dy⌋ : ℚ)) *
            ((1 - ((x - x0) / dx - (⌊(x - x0) / dx⌋ : ℚ))) *
              g.data (⌊(x - x0) / dx⌋).toNat ((⌊(y - y0) / dy⌋).toNat + 1)
            + ((x - x0) / dx - (⌊(x - x0) / dx⌋ : ℚ)) *
              g.data ((⌊(x - x0) / dx⌋).toNat + 1) ((⌊(y - y0) / dy⌋).toNat + 1))) := by
  have e1 : (⌊(x - x0) / dx⌋ + 1).toNat = (⌊(x - x0) / dx⌋).toNat + 1 := by omega
  have e2 : (⌊(y - y0) / dy⌋ + 1).toNat = (⌊(y - y0) / dy⌋).toNat + 1 := by omega
  have h00 := Grid2.get_inb g ⌊(x - x0) / dx⌋ ⌊(y - y0) / dy⌋ hi0 (by omega) hj0 (by omega)
  have h10 := Grid2.get_inb g (⌊(x - x0) / dx⌋ + 1) ⌊(y - y0) / dy⌋ (by omega) (by omega) hj0 (by omega)
  have h01 := Grid2.get_inb g ⌊(x - x0) / dx⌋ (⌊(y - y0) / dy⌋ + 1) hi0 (by omega) (by omega) (by omega)
  have h11 := Grid2.get_inb g (⌊(x - x0) / dx⌋ + 1) (⌊(y - y0) / dy⌋ + 1) (by omega) (by omega) (by omega) (by omega)
  rw [e1] at h10 h11
  rw [e2] at h01 h11
  simp only [Interpolator.get_val, Interpolator.make]
  rw [if_neg (show ¬(dx = 0 ∨ dy = 0) by push_neg; exact ⟨hdx, hdy⟩)]
  rw [if_neg (show ¬(⌊(x - x0) / dx⌋ < 0 ∨ ⌊(y - y0) / dy⌋ < 0) by omega)]
  rw [h00, h10, h01, h11]

lemma get_val_none_oob (g : Grid2) (x0 y0 dx dy x y : ℚ) (allow : Bool)
    (hdx : dx ≠ 0) (hdy : dy ≠ 0)
    (hbad : ⌊(x - x0) / dx⌋ < 0 ∨ ⌊(y - y0) / dy⌋ < 0 ∨
            (g.nx : ℤ) ≤ ⌊(x - x0) / dx⌋ + 1 ∨ (g.ny : ℤ) ≤ ⌊(y - y0) / dy⌋ + 1) :
    (Interpolator.make (x0, y0) (dx, dy) g none).get_val (x, y) allow =
      .error (.coordinateError "Coordinate out of range" (x, y)
        ⌊(x - x0) / dx⌋ ⌊(y - y0) / dy⌋) := by
  simp only [Interpolator.get_val, Interpolator.make]
  rw [if_neg (show ¬(dx = 0 ∨ dy = 0) by push_neg; exact ⟨hdx, hdy⟩)]
  by_cases hneg : ⌊(x - x0) / dx⌋ < 0 ∨ ⌊(y - y0) / dy⌋ < 0
  · rw [if_pos hneg]
  · rw [if_neg hneg]
    rcases (show (g.nx : ℤ) ≤ ⌊(x - x0) / dx⌋ + 1 ∨ (g.ny : ℤ) ≤ ⌊(y - y0) / dy⌋ + 1 by
        omega) with hfar | hfar
    · have h10 : g.get (⌊(x - x0) / dx⌋ + 1) ⌊(y - y0) / dy⌋ = none :=
        Grid2.get_far_left g _ _ (by omega) hfar
      cases h00 : g.get ⌊(x - x0) / dx⌋ ⌊(y - y0) / dy⌋ <;> simp [h00, h10]
    · have h01 : g.get ⌊(x - x0) / dx⌋ (⌊(y - y0) / dy⌋ + 1) = none :=
        Grid2.get_far_right g _ _ (by omega) hfar
      cases h00 : g.get ⌊(x - x0) / dx⌋ ⌊(y - y0) / dy⌋ <;>
        cases h10 : g.get (⌊(x - x0) / dx⌋ + 1) ⌊(y - y0) / dy⌋ <;>
        simp [h00, h10, h01]

lemma get_val_some_oob (g m : Grid2) (x0 y0 dx dy x y : ℚ) (allow : Bool)
    (hdx : dx ≠ 0) (hdy : dy ≠ 0) (hmx : m.nx = g.nx) (hmy : m.ny = g.ny)
    (hbad : ⌊(x - x0) / dx⌋ < 0 ∨ ⌊(y - y0) / dy⌋ < 0 ∨
            (g.nx : ℤ) ≤ ⌊(x - x0) / dx⌋ + 1 ∨ (g.ny : ℤ) ≤ ⌊(y - y0) / dy⌋ + 1) :
    (Interpolator.make (x0, y0) (dx, dy) g (some m)).get_val (x, y) allow =
      .error (.coordinateError "Coordinate out of range" (x, y)
        ⌊(x - x0) / dx⌋ ⌊(y - y0) / dy⌋) := by
  simp only [Interpolator.get_val, Interpolator.make]
  rw [if_neg (show ¬(dx = 0 ∨ dy = 0) by push_neg; exact ⟨hdx, hdy⟩)]
  by_cases hneg : ⌊(x - x0) / dx⌋ < 0 ∨ ⌊(y - y0) / dy⌋ < 0
  · rw [if_pos hneg]
  · rw [if_neg hneg]
    rcases (show (g.nx : ℤ) ≤ ⌊(x - x0) / dx⌋ + 1 ∨ (g.ny : ℤ) ≤ ⌊(y - y0) / dy⌋ + 1 by
        omega) with hfar | hfar
    · have h10 : m.get (⌊(x - x0) / dx⌋ + 1) ⌊(y - y0) / dy⌋ = none :=
        Grid2.get_far_left m _ _ (by omega) (by omega)
      cases h00 : m.get ⌊(x - x0) / dx⌋ ⌊(y - y0) / dy⌋ <;> simp [h00, h10]
    · have h01 : m.get ⌊(x - x0) / dx⌋ (⌊(y - y0) / dy⌋ + 1) = none :=
        Grid2.get_far_right m _ _ (by omega) (by omega)
      cases h00 : m.get ⌊(x - x0) / dx⌋ ⌊(y - y0) / dy⌋ <;>
        cases h10 : m.get (⌊(x - x0) / dx⌋ + 1) ⌊(y - y0) / dy⌋ <;>
        simp [h00, h10, h01]

/-! ### C1: unmasked bilinear interpolation is exact -/

/-- C1: for every unmasked interpolator and every interior grid node `(i, j)`
with `i + 1 < nx` and `j + 1 < ny`, `get_val` at the node's physical
coordinate `(x0 + i*dx, y0 + j*dy)` returns `val[i, j]`; for a field linear
in the grid indices the interpolated value is exact at any interior point;
and on the grid `origin=(0,0)`, `delta=(1,1)`, `shape=(4,4)` with field
`val[i,j] = i + j` and no mask, `get_val((1.5, 1.5))` returns `3.0`. -/
theorem C1_bilinear_exact :
    (∀ (g : Grid2) (x0 y0 dx dy : ℚ) (i j : ℕ), dx ≠ 0 → dy ≠ 0 →
      i + 1 < g.nx → j + 1 < g.ny →
      (Interpolator.make (x0, y0) (dx, dy) g none).get_val
          (x0 + (i : ℚ) * dx, y0 + (j : ℚ) * dy) false = .ok (g.data i j))
    ∧
    (∀ (g : Grid2) (x0 y0 dx dy A B C x y : ℚ), dx ≠ 0 → dy ≠ 0 →
      (∀ a b : ℕ, a < g.nx → b < g.ny → g.data a b = A + B * (a : ℚ) + C * (b : ℚ)) →
      0 ≤ ⌊(x - x0) / dx⌋ → ⌊(x - x0) / dx⌋ + 1 < (g.nx : ℤ) →
      0 ≤ ⌊(y - y0) / dy⌋ → ⌊(y - y0) / dy⌋ + 1 < (g.ny : ℤ) →
      (Interpolator.make (x0, y0) (dx, dy) g none).get_val (x, y) false
        = .ok (A + B * ((x - x0) / dx) + C * ((y - y0) / dy)))
    ∧
    (Interpolator.make (0, 0) (1, 1) sumGrid none).get_val (3/2, 3/2) false = .ok 3 := by
  refine ⟨?_, ?_, ?_⟩
  · intro g x0 y0 dx dy i j hdx hdy hi hj
    have hfx : (x0 + (i : ℚ) * dx - x0) / dx = (i : ℚ) := by field_simp
    have hfy : (y0 + (j : ℚ) * dy - y0) / dy = (j : ℚ) := by field_simp
    rw [get_val_none_eval g x0 y0 dx dy _ _ false hdx hdy
      (by rw [hfx, Int.floor_natCast]; exact Int.natCast_nonneg i)
      (by rw [hfy, Int.floor_natCast]; exact Int.natCast_nonneg j)
      (by rw [hfx, Int.floor_natCast]; exact_mod_cast hi)
      (by rw [hfy, Int.floor_natCast]; exact_mod_cast hj)]
    rw [hfx, hfy, Int.floor_natCast, Int.floor_natCast]
    simp [Int.toNat_ofNat, Int.cast_natCast]
  · intro g x0 y0 dx dy A B C x y hdx hdy hlin hi0 hi1 hj0 hj1
    rw [get_val_none_eval g x0 y0 dx dy x y false hdx hdy hi0 hj0 hi1 hj1]
    rw [hlin _ _ (by omega) (by omega), hlin _ _ (by omega) (by omega),
        hlin _ _ (by omega) (by omega), hlin _ _ (by omega) (by omega)]
    have e1 : ((⌊(x - x0) / dx⌋.toNat : ℕ) : ℚ) = ((⌊(x - x0) / dx⌋ : ℤ) : ℚ) := by
      exact_mod_cast congrArg (fun t : ℤ => (t : ℚ)) (Int.toNat_of_nonneg hi0)
    have e2 : ((⌊(y - y0) / dy⌋.toNat : ℕ) : ℚ) = ((⌊(y - y0) / dy⌋ : ℤ) : ℚ) := by
      exact_mod_cast congrArg (fun t : ℤ => (t : ℚ)) (Int.toNat_of_nonneg hj0)
    push_cast
    rw [e1, e2]
    congr 1
    ring
  · rw [get_val_none_eval sumGrid 0 0 1 1 (3/2) (3/2) false one_ne_zero one_ne_zero
      (by norm_num) (by norm_num) (by norm_num [sumGrid]) (by norm_num [sumGrid])]
    norm_num [sumGrid]

/-- Witness for C1: the node `(1, 2)` of the example grid, via the first
conjunct of `C1_bilinear_exact`. -/
theorem C1_witness :
    (Interpolator.make (0, 0) (1, 1) sumGrid none).get_val
        (0 + ((1 : ℕ) : ℚ) * 1, 0 + ((2 : ℕ) : ℚ) * 1) false
      = .ok (sumGrid.data 1 2) := by
  have h := C1_bilinear_exact.1 sumGrid 0 0 1 1 1 2 one_ne_zero one_ne_zero
    (by norm_num [sumGrid]) (by norm_num [sumGrid])
  exact h

/-! ### C2 and C8: the extrapolation search wraps negative offsets -/

/-- C2: evaluation of the code at the failing input.  On the 4x4 unit grid
with mask zero except `mask[3,0] = 1` and field `val[a,b] = 10a+b`, the query
`(0.5, 0.5)` has its four corners masked out and no *in-bounds* candidate of
the 12-offset search set is valid, so by the claim `get_val` with
`allow_extrapolation` should fail with a coordinate error; instead the
offset `(i-1, j) = (-1, 0)` wraps around to `mask[3, 0]` (numpy negative
indexing raises no `IndexError`), and the call returns
`val[-1, 0] = val[3, 0] = 30`. -/
theorem C2_wrap_extrapolation_returns_value :
    (Interpolator.make (0, 0) (1, 1) rampVal (some wrapMask)).get_val (1/2, 1/2) true
      = .ok 30 := by
  norm_num +decide [Interpolator.get_val, Interpolator.make,
    Interpolator.find_extrapolation_points, cacheLookup, searchOffsets, maskTruthy,
    sumValList, Grid2.get, pyIdx, wrapMask, rampVal, Int.toNat_ofNat, List.filter,
    show Int.toNat 3 = 3 from rfl, show Int.toNat 2 = 2 from rfl]

/-- C8: evaluation of the code at the failing input.  With the same mask,
`find_extrapolation_points` around `(i, j) = (0, 0)` returns the offset
`(-1, 0)`, which is not an in-bounds point: numpy wraps it to the far row 3
instead of raising the `IndexError` that would have skipped it. -/
theorem C8_wrap_offsets_returns_negative_point :
    (Interpolator.make (0, 0) (1, 1) rampVal (some wrapMask)).find_extrapolation_points
        (1/2, 1/2) 0 0 = .ok [(-1, 0)] := by
  norm_num +decide [Interpolator.find_extrapolation_points, Interpolator.make,
    cacheLookup, searchOffsets, maskTruthy, Grid2.get, pyIdx, wrapMask,
    Int.toNat_ofNat, List.filter, show Int.toNat 3 = 3 from rfl,
    show Int.toNat 2 = 2 from rfl]

/-! ### C7: a single valid corner keeps plain interpolation alive -/

/-- C7 counterexample: on the 4x4 unit grid with mask zero except
`mask[0,0] = 1` and field `val[a,b] = 10a+b`, the claim says
`get_val((0.5, 0.5))` with `allow_extrapolation=False` fails with a
coordinate error; in fact corner `(0,0)` contributes weight
`0.25 * mask[0,0] = 0.25 > 0`, so the call succeeds and returns
`val[0,0] = 0`. -/
theorem C7_counterexample :
    (Interpolator.make (0, 0) (1, 1) rampVal (some cornerMask)).get_val (1/2, 1/2) false
      = .ok 0 := by
  norm_num +decide [Interpolator.get_val, Interpolator.make, Grid2.get, pyIdx,
    cornerMask, rampVal]

/-- C7 (amended): with mask zero everywhere except `mask[0,0] = 1`, querying
`(0.5, 0.5)` returns `val[0,0]` both with and without extrapolation: the
mask-weighted sum has `sumw = 0.25 > 0`, so the renormalized interpolation
returns the single valid corner's value and no error is raised. -/
theorem C7_corner_weight_value :
    ∀ v : ℕ → ℕ → ℚ,
      (Interpolator.make (0, 0) (1, 1) ⟨4, 4, v⟩ (some cornerMask)).get_val
          (1/2, 1/2) false = .ok (v 0 0)
      ∧ (Interpolator.make (0, 0) (1, 1) ⟨4, 4, v⟩ (some cornerMask)).get_val
          (1/2, 1/2) true = .ok (v 0 0) := by
  intro v
  constructor <;>
    norm_num +decide [Interpolator.get_val, Interpolator.make, Grid2.get, pyIdx,
      cornerMask]

/-! ### C4: which queries raise a coordinate error -/

/-- C4 counterexample: with the all-zero 4x4 mask, the query `(1.5, 1.5)` has
`i = j = 1`, all four corner indices strictly inside the array, yet `get_val`
with `allow_extrapolation=False` raises a coordinate error ("Probing point
inside land mask"); the claim's "exactly when" (negative index or corner at
or beyond the far boundary) therefore fails in masked mode. -/
theorem C4_counterexample :
    (Interpolator.make (0, 0) (1, 1) rampVal (some zeroMask)).get_val (3/2, 3/2) false
      = .error (.coordinateError "Probing point inside land mask" (3/2, 3/2) 1 1) := by
  norm_num +decide [Interpolator.get_val, Interpolator.make, Grid2.get, pyIdx,
    zeroMask, rampVal]

/-- C4 (amended): in unmasked mode `get_val` fails with a coordinate error
carrying `(x, i, j)` *exactly* when `i < 0`, `j < 0`, or one of the four
corner indices `i, i+1` (first axis) or `j, j+1` (second axis) lies at or
beyond the far boundary; in masked mode (mask of the same shape) those
conditions still imply the same coordinate error, but are no longer
necessary: an interior query whose four corners are all masked out also
fails. -/
theorem C4_coordinate_error_conditions (g m : Grid2) (x0 y0 dx dy x y : ℚ)
    (allow : Bool) (hdx : dx ≠ 0) (hdy : dy ≠ 0)
    (hmx : m.nx = g.nx) (hmy : m.ny = g.ny) :
    (coordErrAt ((Interpolator.make (x0, y0) (dx, dy) g none).get_val (x, y) allow)
        (x, y) ⌊(x - x0) / dx⌋ ⌊(y - y0) / dy⌋ = true
      ↔ (⌊(x - x0) / dx⌋ < 0 ∨ ⌊(y - y0) / dy⌋ < 0 ∨
         (g.nx : ℤ) ≤ ⌊(x - x0) / dx⌋ ∨ (g.nx : ℤ) ≤ ⌊(x - x0) / dx⌋ + 1 ∨
         (g.ny : ℤ) ≤ ⌊(y - y0) / dy⌋ ∨ (g.ny : ℤ) ≤ ⌊(y - y0) / dy⌋ + 1))
    ∧ ((⌊(x - x0) / dx⌋ < 0 ∨ ⌊(y - y0) / dy⌋ < 0 ∨
         (g.nx : ℤ) ≤ ⌊(x - x0) / dx⌋ ∨ (g.nx : ℤ) ≤ ⌊(x - x0) / dx⌋ + 1 ∨
         (g.ny : ℤ) ≤ ⌊(y - y0) / dy⌋ ∨ (g.ny : ℤ) ≤ ⌊(y - y0) / dy⌋ + 1) →
       coordErrAt ((Interpolator.make (x0, y0) (dx, dy) g (some m)).get_val (x, y) allow)
         (x, y) ⌊(x - x0) / dx⌋ ⌊(y - y0) / dy⌋ = true) := by
  constructor
  · constructor
    · intro h
      by_contra hbad
      push_neg at hbad
      obtain ⟨n1, n2, n3, n4, n5, n6⟩ := hbad
      rw [get_val_none_eval g x0 y0 dx dy x y allow hdx hdy (by omega) (by omega)
        (by omega) (by omega)] at h
      simp [coordErrAt] at h
    · intro hb
      rw [get_val_none_oob g x0 y0 dx dy x y allow hdx hdy (by omega)]
      simp [coordErrAt]
  · intro hb
    rw [get_val_some_oob g m x0 y0 dx dy x y allow hdx hdy hmx hmy (by omega)]
    simp [coordErrAt]

/-- Witness for C4: the query `(10, 10)` on the 4x4 unit grid is far beyond
the boundary, and the unmasked equivalence of
`C4_coordinate_error_conditions` reports a coordinate error. -/
theorem C4_witness :
    coordErrAt ((Interpolator.make (0, 0) (1, 1) rampVal none).get_val (10, 10) false)
      (10, 10) ⌊((10 : ℚ) - 0) / 1⌋ ⌊((10 : ℚ) - 0) / 1⌋ = true := by
  refine (C4_coordinate_error_conditions rampVal onesMask 0 0 1 1 10 10 false
    one_ne_zero one_ne_zero rfl rfl).1.mpr ?_
  right; right; left
  norm_num [rampVal]

/-! ### C3: an all-valid mask changes nothing -/

/-- C3: whenever the four corner mask values are all `1.0` (and the corner
indices are inside the arrays), the masked `get_val` equals the unmasked
`get_val` for the same field, origin, delta and query point: the four
mask-weighted weights sum to `1`, so the renormalized sum is the plain
bilinear sum. -/
theorem C3_masked_eq_unmasked (g m : Grid2) (x0 y0 dx dy x y : ℚ) (allow : Bool)
    (hdx : dx ≠ 0) (hdy : dy ≠ 0)
    (h00 : m.get ⌊(x - x0) / dx⌋ ⌊(y - y0) / dy⌋ = some 1)
    (h10 : m.get (⌊(x - x0) / dx⌋ + 1) ⌊(y - y0) / dy⌋ = some 1)
    (h01 : m.get ⌊(x - x0) / dx⌋ (⌊(y - y0) / dy⌋ + 1) = some 1)
    (h11 : m.get (⌊(x - x0) / dx⌋ + 1) (⌊(y - y0) / dy⌋ + 1) = some 1)
    (hi0 : 0 ≤ ⌊(x - x0) / dx⌋) (hj0 : 0 ≤ ⌊(y - y0) / dy⌋)
    (hi1 : ⌊(x - x0) / dx⌋ + 1 < (g.nx : ℤ)) (hj1 : ⌊(y - y0) / dy⌋ + 1 < (g.ny : ℤ)) :
    (Interpolator.make (x0, y0) (dx, dy) g (some m)).get_val (x, y) allow
      = (Interpolator.make (x0, y0) (dx, dy) g none).get_val (x, y) allow := by
  rw [get_val_none_eval g x0 y0 dx dy x y allow hdx hdy hi0 hj0 hi1 hj1]
  have e1 : (⌊(x - x0) / dx⌋ + 1).toNat = (⌊(x - x0) / dx⌋).toNat + 1 := by omega
  have e2 : (⌊(y - y0) / dy⌋ + 1).toNat = (⌊(y - y0) / dy⌋).toNat + 1 := by omega
  have v00 := Grid2.get_inb g ⌊(x - x0) / dx⌋ ⌊(y - y0) / dy⌋ hi0 (by omega) hj0 (by omega)
  have v10 := Grid2.get_inb g (⌊(x - x0) / dx⌋ + 1) ⌊(y - y0) / dy⌋ (by omega) (by omega) hj0 (by omega)
  have v01 := Grid2.get_inb g ⌊(x - x0) / dx⌋ (⌊(y - y0) / dy⌋ + 1) hi0 (by omega) (by omega) (by omega)
  have v11 := Grid2.get_inb g (⌊(x - x0) / dx⌋ + 1) (⌊(y - y0) / dy⌋ + 1) (by omega) (by omega) (by omega) (by omega)
  rw [e1] at v10 v11
  rw [e2] at v01 v11
  simp only [Interpolator.get_val, Interpolator.make]
  rw [if_neg (show ¬(dx = 0 ∨ dy = 0) by push_neg; exact ⟨hdx, hdy⟩)]
  rw [if_neg (show ¬(⌊(x - x0) / dx⌋ < 0 ∨ ⌊(y - y0) / dy⌋ < 0) by omega)]
  simp only [h00, h10, h01, h11, v00, v10, v01, v11]
  set a := (x - x0) / dx - ((⌊(x - x0) / dx⌋ : ℤ) : ℚ) with ha
  set b := (y - y0) / dy - ((⌊(y - y0) / dy⌋ : ℤ) : ℚ) with hb
  have hs : (1 - a) * (1 - b) * 1 + a * (1 - b) * 1 + (1 - a) * b * 1 + a * b * 1 = 1 := by
    ring
  rw [hs]
  rw [if_pos one_pos]
  rw [div_one]
  congr 1
  ring

/-- Witness for C3: on the 4x4 unit grid with the all-ones mask, masked and
unmasked interpolation agree at `(0.5, 0.5)`. -/
theorem C3_witness :
    (Interpolator.make (0, 0) (1, 1) rampVal (some onesMask)).get_val (1/2, 1/2) false
      = (Interpolator.make (0, 0) (1, 1) rampVal none).get_val (1/2, 1/2) false := by
  refine C3_masked_eq_unmasked rampVal onesMask 0 0 1 1 (1/2) (1/2) false
    one_ne_zero one_ne_zero ?_ ?_ ?_ ?_ ?_ ?_ ?_ ?_ <;>
    norm_num [Grid2.get, pyIdx, onesMask, rampVal]


/-! ### C5 and C9: windowing -/

/-- A successful `set_ranges` loop produces exactly the per-axis
`rangeAxis` windows, new origins `xmin + imin*deltax` and new shapes
`imax - imin`, with `imin < imax` on every zipped axis. -/
lemma setRangesLoop_ok_spec :
    ∀ (rs : List (ℚ × ℚ)) (os : List ℚ) (ns : List ℤ) (ds : List ℚ)
      (ir : List (ℤ × ℤ)) (onew : List ℚ) (snew : List ℤ),
    setRangesLoop rs os ns ds = .ok (ir, onew, snew) →
    ir = (zip4 rs os ns ds).map (fun a => rangeAxis a.1 a.2.1 a.2.2.1 a.2.2.2)
    ∧ onew = (zip4 rs os ns ds).map
        (fun a => a.2.1 + (((rangeAxis a.1 a.2.1 a.2.2.1 a.2.2.2).1 : ℤ) : ℚ) * a.2.2.2)
    ∧ snew = (zip4 rs os ns ds).map
        (fun a => (rangeAxis a.1 a.2.1 a.2.2.1 a.2.2.2).2 - (rangeAxis a.1 a.2.1 a.2.2.1 a.2.2.2).1)
    ∧ ∀ a ∈ zip4 rs os ns ds,
        (rangeAxis a.1 a.2.1 a.2.2.1 a.2.2.2).1 < (rangeAxis a.1 a.2.1 a.2.2.1 a.2.2.2).2 := by
  intro rs
  induction rs with
  | nil =>
    intro os ns ds ir onew snew h
    simp only [setRangesLoop, Except.ok.injEq, Prod.mk.injEq] at h
    obtain ⟨h1, h2, h3⟩ := h
    subst h1; subst h2; subst h3
    simp [zip4]
  | cons hd tl ih =>
    intro os ns ds ir onew snew h
    rcases os with _ | ⟨o, os⟩
    · simp only [setRangesLoop, Except.ok.injEq, Prod.mk.injEq] at h
      obtain ⟨h1, h2, h3⟩ := h
      subst h1; subst h2; subst h3
      simp [zip4]
    rcases ns with _ | ⟨n, ns⟩
    · simp only [setRangesLoop, Except.ok.injEq, Prod.mk.injEq] at h
      obtain ⟨h1, h2, h3⟩ := h
      subst h1; subst h2; subst h3
      simp [zip4]
    rcases ds with _ | ⟨d, ds⟩
    · simp only [setRangesLoop, Except.ok.injEq, Prod.mk.injEq] at h
      obtain ⟨h1, h2, h3⟩ := h
      subst h1; subst h2; subst h3
      simp [zip4]
    simp only [setRangesLoop] at h
    by_cases hd0 : d = 0
    · rw [if_pos hd0] at h; simp at h
    · rw [if_neg hd0] at h
      by_cases hbad : (rangeAxis hd o n d).2 ≤ (rangeAxis hd o n d).1
      · rw [if_pos hbad] at h; simp at h
      · rw [if_neg hbad] at h
        cases hrec : setRangesLoop tl os ns ds with
        | error e => rw [hrec] at h; simp at h
        | ok t =>
          obtain ⟨ir2, onew2, snew2⟩ := t
          rw [hrec] at h
          simp only [Except.ok.injEq, Prod.mk.injEq] at h
          obtain ⟨h1, h2, h3⟩ := h
          obtain ⟨g1, g2, g3, g4⟩ := ih os ns ds ir2 onew2 snew2 hrec
          subst h1; subst h2; subst h3
          refine ⟨by simp [zip4, g1], by simp [zip4, g2], by simp [zip4, g3], ?_⟩
          intro a ha
          rw [show zip4 (hd :: tl) (o :: os) (n :: ns) (d :: ds)
              = (hd, o, n, d) :: zip4 tl os ns ds from rfl] at ha
          rcases List.mem_cons.mp ha with rfl | ha2
          · exact not_le.mp hbad
          · exact g4 a ha2

/-- When every zipped axis has a nonzero delta and some zipped axis has
`imax <= imin`, the `set_ranges` loop raises the configuration error. -/
lemma setRangesLoop_err_spec :
    ∀ (rs : List (ℚ × ℚ)) (os : List ℚ) (ns : List ℤ) (ds : List ℚ),
    (∀ a ∈ zip4 rs os ns ds, a.2.2.2 ≠ 0) →
    (∃ a ∈ zip4 rs os ns ds,
        (rangeAxis a.1 a.2.1 a.2.2.1 a.2.2.2).2 ≤ (rangeAxis a.1 a.2.1 a.2.2.1 a.2.2.2).1) →
    setRangesLoop rs os ns ds
      = .error (.netcdfError "Provided ranges outside netCDF range") := by
  intro rs
  induction rs with
  | nil => intro os ns ds hnz hex; simp [zip4] at hex
  | cons hd tl ih =>
    intro os ns ds hnz hex
    rcases os with _ | ⟨o, os⟩
    · simp [zip4] at hex
    rcases ns with _ | ⟨n, ns⟩
    · simp [zip4] at hex
    rcases ds with _ | ⟨d, ds⟩
    · simp [zip4] at hex
    have hz : zip4 (hd :: tl) (o :: os) (n :: ns) (d :: ds)
        = (hd, o, n, d) :: zip4 tl os ns ds := rfl
    have hd0 : d ≠ 0 := hnz (hd, o, n, d) (by rw [hz]; exact List.mem_cons_self _ _)
    simp only [setRangesLoop]
    rw [if_neg hd0]
    by_cases hbad : (rangeAxis hd o n d).2 ≤ (rangeAxis hd o n d).1
    · rw [if_pos hbad]
    · rw [if_neg hbad]
      have hrec : setRangesLoop tl os ns ds
          = .error (.netcdfError "Provided ranges outside netCDF range") := by
        apply ih
        · intro a ha
          exact hnz a (by rw [hz]; exact List.mem_cons_of_mem _ ha)
        · rcases hex with ⟨a, ha, hba⟩
          rw [hz] at ha
          rcases List.mem_cons.mp ha with rfl | ha2
          · exact absurd hba hbad
          · exact ⟨a, ha2, hba⟩
      rw [hrec]

/-- A successful `set_ranges` went through the loop and stored its results
in `iranges`, `origin` and `shape`. -/
lemma set_ranges_ok_fields (s s2 : NetCDFInterpolator) (ranges : List (ℚ × ℚ))
    (h : s.set_ranges ranges = .ok s2) :
    ∃ ir onew snew,
      setRangesLoop ranges s.origin s.shape s.delta = .ok (ir, onew, snew)
      ∧ s2.iranges = some ir ∧ s2.origin = onew ∧ s2.shape = snew := by
  unfold NetCDFInterpolator.set_ranges at h
  cases hir : s.iranges with
  | some v => rw [hir] at h; simp at h
  | none =>
    rw [hir] at h
    cases hl : setRangesLoop ranges s.origin s.shape s.delta with
    | error e => rw [hl] at h; simp at h
    | ok t =>
      obtain ⟨ir, onew, snew⟩ := t
      rw [hl] at h
      refine ⟨ir, onew, snew, rfl, ?_⟩
      rcases hmm : s.mask with _ | m <;> rw [hmm] at h <;>
        rcases hint : s.interpolator with _ | ip <;> rw [hint] at h <;>
        rcases hval : s.val with _ | v <;> rw [hval] at h <;>
        rcases ir with _ | ⟨r0, _ | ⟨r1, irtl2⟩⟩ <;>
        first
          | exact Except.noConfusion h
          | (injection h with h2; subst h2; exact ⟨rfl, rfl, rfl⟩)

/-- C5 (amended): on a first call of `set_ranges`, a successful return has,
per axis, `imin = max(int((xmin_req-origin)/delta) - 1, 0)` and
`imax = min(int((xmax_req-origin)/delta) + 3, shape)` -- with Python `int()`
truncation toward zero, not `floor` -- and the new origin and shape satisfy
`origin_new = origin + imin*delta` and `shape_new = imax - imin`, with
`imin < imax` everywhere; and if `imin >= imax` on some axis (all deltas
nonzero), the call fails with the configuration error. -/
theorem C5_set_ranges_window (s s2 : NetCDFInterpolator) (ranges : List (ℚ × ℚ))
    (h0 : s.iranges = none) :
    (s.set_ranges ranges = .ok s2 →
      s2.iranges = some ((zip4 ranges s.origin s.shape s.delta).map
          (fun a => rangeAxis a.1 a.2.1 a.2.2.1 a.2.2.2))
      ∧ s2.origin = (zip4 ranges s.origin s.shape s.delta).map
          (fun a => a.2.1 + (((rangeAxis a.1 a.2.1 a.2.2.1 a.2.2.2).1 : ℤ) : ℚ) * a.2.2.2)
      ∧ s2.shape = (zip4 ranges s.origin s.shape s.delta).map
          (fun a => (rangeAxis a.1 a.2.1 a.2.2.1 a.2.2.2).2
            - (rangeAxis a.1 a.2.1 a.2.2.1 a.2.2.2).1)
      ∧ ∀ a ∈ zip4 ranges s.origin s.shape s.delta,
          (rangeAxis a.1 a.2.1 a.2.2.1 a.2.2.2).1 < (rangeAxis a.1 a.2.1 a.2.2.1 a.2.2.2).2)
    ∧ ((∀ a ∈ zip4 ranges s.origin s.shape s.delta, a.2.2.2 ≠ 0) →
       (∃ a ∈ zip4 ranges s.origin s.shape s.delta,
          (rangeAxis a.1 a.2.1 a.2.2.1 a.2.2.2).2 ≤ (rangeAxis a.1 a.2.1 a.2.2.1 a.2.2.2).1) →
       s.set_ranges ranges = .error (.netcdfError "Provided ranges outside netCDF range")) := by
  constructor
  · intro h
    obtain ⟨ir, onew, snew, hl, hi, ho, hs⟩ := set_ranges_ok_fields s s2 ranges h
    obtain ⟨g1, g2, g3, g4⟩ := setRangesLoop_ok_spec ranges s.origin s.shape s.delta
      ir onew snew hl
    exact ⟨by rw [hi, g1], by rw [ho, g2], by rw [hs, g3], g4⟩
  · intro hnz hex
    unfold NetCDFInterpolator.set_ranges
    rw [h0, setRangesLoop_err_spec ranges s.origin s.shape s.delta hnz hex]

/-- C5 counterexample: requesting ranges `[-3.5, -0.5]` on both axes of the
4x4 unit grid succeeds with `shape_new = [3, 3]` (the code truncates
`int(-0.5) = 0`, so `imax = 3`), while the claim's floor formula
`min(floor(-0.5) + 3, 4) - max(floor(-3.5) - 1, 0)` predicts `2`. -/
theorem C5_counterexample :
    (baseState.set_ranges [(-7/2, -1/2), (-7/2, -1/2)]).map (fun t => t.shape)
      = .ok [3, 3]
    ∧ min (⌊((-1/2 : ℚ) - 0) / 1⌋ + 3) 4 - max (⌊((-7/2 : ℚ) - 0) / 1⌋ - 1) 0 = 2 := by
  have hc1 : (⌈-((7:ℚ)/2)⌉ : ℤ) = -3 := by
    rw [Int.ceil_eq_iff]; norm_num
  have hc2 : (⌈-((1:ℚ)/2)⌉ : ℤ) = 0 := by
    rw [Int.ceil_eq_iff]; norm_num
  constructor
  · norm_num [NetCDFInterpolator.set_ranges, setRangesLoop, rangeAxis, pyInt,
      baseState, Except.map, hc1, hc2, max_def, min_def]
  · have hf1 : (⌊-((1:ℚ)/2)⌋ : ℤ) = -1 := by
      rw [Int.floor_eq_iff]; norm_num
    have hf2 : (⌊-((7:ℚ)/2)⌋ : ℤ) = -4 := by
      rw [Int.floor_eq_iff]; norm_num
    norm_num [hf1, hf2, max_def, min_def]

/-- Witness for C5: requesting `[100, 200]` on both axes of the 4x4 unit
grid lies outside the grid, and `set_ranges` fails with the configuration
error by the second conjunct of `C5_set_ranges_window`. -/
theorem C5_witness :
    baseState.set_ranges [(100, 200), (100, 200)]
      = .error (.netcdfError "Provided ranges outside netCDF range") := by
  refine (C5_set_ranges_window baseState baseState [(100, 200), (100, 200)] rfl).2 ?_ ?_
  · intro a ha
    simp [baseState, zip4] at ha
    subst ha
    norm_num
  · refine ⟨((100, 200), 0, 4, 1), by simp [baseState, zip4], ?_⟩
    norm_num [rangeAxis, pyInt]

/-- C9: `set_ranges` succeeds at most once: any state produced by a
successful `set_ranges` has `iranges` set, so a second call fails with the
configuration error "set_ranges() should only be called once!". -/
theorem C9_set_ranges_once (s s2 : NetCDFInterpolator) (r1 r2 : List (ℚ × ℚ))
    (h : s.set_ranges r1 = .ok s2) :
    s2.set_ranges r2 = .error (.netcdfError "set_ranges() should only be called once!") := by
  obtain ⟨ir, onew, snew, hl, hi, ho, hs⟩ := set_ranges_ok_fields s s2 r1 h
  unfold NetCDFInterpolator.set_ranges
  rw [hi]

/-- Witness for C9: after `set_ranges(((0,2),(0,2)))` on the 4x4 unit grid
(reaching `windowedState`), a second `set_ranges` fails. -/
theorem C9_witness :
    windowedState.set_ranges [(0, 2), (0, 2)]
      = .error (.netcdfError "set_ranges() should only be called once!") := by
  refine C9_set_ranges_once baseState windowedState [(0, 2), (0, 2)] [(0, 2), (0, 2)] ?_
  norm_num [NetCDFInterpolator.set_ranges, setRangesLoop, rangeAxis, pyInt,
    baseState, windowedState]

/-! ### C6 and C10: the NetCDFInterpolator front end -/

/-- C6: evaluation of the code at the failing input.  A freshly constructed
`NetCDFInterpolator` (no `set_field` yet) answers `get_val` with an
`AttributeError`, not the intended configuration error: `__init__`
unconditionally sets `self.interpolator = None` (line 199), so the
`hasattr(self, "interpolator")` guard of `get_val` never fires and the
delegation dereferences `None`. -/
theorem C6_get_val_before_set_field :
    exceptOk (NetCDFInterpolator.init demoFile (.fromNames ["nx", "ny"] ["lon", "lat"]) none) = true
    ∧ (NetCDFInterpolator.init demoFile (.fromNames ["nx", "ny"] ["lon", "lat"]) none).bind
        (fun s => s.get_val (1/2, 1/2) false) = .error .attributeError := by
  constructor <;>
    norm_num [NetCDFInterpolator.init, initBase, initLoop, axisOriginDelta, demoFile,
      exceptOk, Except.bind, NetCDFInterpolator.get_val]

/-- C10: constructing a `NetCDFInterpolator` with a `"ranges"` keyword
argument raises `TypeError` whenever the argument-parsing phase would have
succeeded (the code calls the kwargs dict, `kwargs("ranges")`), and such a
construction can never succeed, so the windowing-at-construction path is
unusable. -/
theorem C10_ranges_kwarg_typeerror (nc : NcFile) (args : InitArgs) (r : List (ℚ × ℚ)) :
    (∀ s, NetCDFInterpolator.init nc args none = .ok s →
       NetCDFInterpolator.init nc args (some r) = .error .typeError)
    ∧ (∀ s, NetCDFInterpolator.init nc args (some r) ≠ .ok s) := by
  constructor
  · intro s h
    unfold NetCDFInterpolator.init at h ⊢
    cases hb : initBase nc args with
    | error e => rw [hb] at h; simp at h
    | ok base => rfl
  · intro s h
    unfold NetCDFInterpolator.init at h
    cases hb : initBase nc args with
    | error e => rw [hb] at h; simp at h
    | ok base => rw [hb] at h; simp at h

/-- Witness for C10: copying the grid identity of `baseState` parses, so the
same construction with a `"ranges"` kwarg raises `TypeError`. -/
theorem C10_witness :
    NetCDFInterpolator.init emptyNc (.copy baseState) (some [(0, 1), (0, 1)])
      = .error .typeError := by
  refine (C10_ranges_kwarg_typeerror emptyNc (.copy baseState) [(0, 1), (0, 1)]).1
    { nc := emptyNc, shape := baseState.shape, origin := baseState.origin,
      delta := baseState.delta, iranges := baseState.iranges, mask := baseState.mask,
      val := none, interpolator := none } ?_
  rfl
